import Mathlib

/-!
Formal model of the Reddit_Data_Project pipeline.

The definitions below are a shallow embedding of the repository's Python
sources, chiefly `scripts/reddit_scraper.py` (the deduplicating ingestor)
and the engagement derivation of `scripts/feature_engineering.py`.
File I/O is modelled as an explicit trace of file-system operations, and
the pandas DataFrame of posts as its list of rows together with the one
column-presence fact the code ever tests (whether `scraped_at` exists).
-/

namespace Reddit

/-- One scraped record, with the fields built in `scrape_subreddit`
(reddit_scraper.py lines 69-82).  `scraped_at` is `none` for a row of a
master file written before that column existed; `created_utc` is kept as
an integer timestamp (opaque payload to the ingestor). -/
structure Row where
  id : String
  title : String
  selftext : String
  score : Int
  num_comments : Int
  created_utc : Int
  subreddit : String
  author : String
  over_18 : Bool
  is_self : Bool
  url : String
  scraped_at : Option String
deriving DecidableEq

/-- A post as the external source (praw) returns it to one fetch call. -/
structure PrawPost where
  id : String
  title : String
  selftext : String
  score : Int
  num_comments : Int
  created_utc : Int
  author : String
  over_18 : Bool
  is_self : Bool
  url : String
deriving DecidableEq

/-- A pandas DataFrame of posts: its rows in order, plus whether the
`scraped_at` column is present — the only column whose presence the code
tests (reddit_scraper.py line 94). -/
structure DataFrame where
  rows : List Row
  hasScrapedAtCol : Bool
deriving DecidableEq

/-- Configuration constants (reddit_scraper.py lines 24-27). -/
def SUBREDDITS : List String := ["depression", "mentalhealth"]

def SORT_BY : String := "hot"

def MASTER_FILENAME : String := "reddit_posts_master.csv"

/-- Helper for `drop_duplicates_by_id`: `seen` holds the ids already kept. -/
def dropDupAux (seen : List String) : List Row → List Row
  | [] => []
  | r :: rs =>
    if r.id ∈ seen then dropDupAux seen rs
    else r :: dropDupAux (r.id :: seen) rs

/-- pandas `drop_duplicates(subset=[id], keep=first)` as called at
reddit_scraper.py line 101: keep the first occurrence of every id. -/
def drop_duplicates_by_id (rows : List Row) : List Row :=
  dropDupAux [] rows

/-- First row carrying a given id, in order (pandas row lookup by id). -/
def findFirstById (x : String) : List Row → Option Row
  | [] => none
  | r :: rs => if r.id = x then some r else findFirstById x rs

/-- reddit_scraper.py line 95: the assignment
`existing_posts[scraped_at] = unknown` applied to one row. -/
def addScrapedAtUnknown (r : Row) : Row :=
  { r with scraped_at := some "unknown" }

/-- Drop the `scraped_at` column of a row (used to compare a merged row
with its pre-merge original on every other field). -/
def stripScrapedAt (r : Row) : Row :=
  { r with scraped_at := none }

/-- reddit_scraper.py lines 92-95: if `existing_posts` is non-empty and has
no `scraped_at` column, add that column with value "unknown" to every row.
The assignment happens in place on the caller's frame. -/
def fixScrapedAt (existing : DataFrame) : DataFrame :=
  if existing.rows.isEmpty then existing
  else if existing.hasScrapedAtCol then existing
  else ⟨existing.rows.map addScrapedAtUnknown, true⟩

/-- reddit_scraper.py lines 92-101: concatenate the (possibly column-fixed)
existing posts with the new posts — or take the new posts alone when there
are no existing ones — then drop duplicate ids keeping the first
occurrence. -/
def combinedOf (all_posts existing : DataFrame) : DataFrame :=
  if existing.rows.isEmpty then
    ⟨drop_duplicates_by_id all_posts.rows, all_posts.hasScrapedAtCol⟩
  else
    ⟨drop_duplicates_by_id ((fixScrapedAt existing).rows ++ all_posts.rows),
      (fixScrapedAt existing).hasScrapedAtCol || all_posts.hasScrapedAtCol⟩

/-- A file-system operation performed by the script.  `write` models
`DataFrame.to_csv(path)`; the content is kept as the frame itself, CSV
serialisation being a commodity concern. -/
inductive FsOp where
  | write (path : String) (content : DataFrame)
  | rename (src dst : String)
deriving DecidableEq

/-- Test for the rename constructor. -/
def isRename : FsOp → Bool
  | FsOp.rename _ _ => true
  | FsOp.write _ _ => false

/-- reddit_scraper.py line 110: the backup file name, qualified by sort
order and a second-granularity timestamp string. -/
def backup_filename (sort_by timestamp : String) : String :=
  "reddit_posts_" ++ sort_by ++ "_" ++ timestamp ++ ".csv"

/-- `os.path.join` restricted to the two-argument uses in the script. -/
def joinPath (dir file : String) : String :=
  dir ++ "/" ++ file

/-- Result of `save_posts`: the combined frame it returns, the value of the
caller's `existing_posts` frame after the call (the `scraped_at` fix at
line 95 mutates the caller's object in place), and the trace of file
writes it performs. -/
structure SaveResult where
  combined : DataFrame
  existingAfter : DataFrame
  ops : List FsOp
deriving DecidableEq

/-- `save_posts` (reddit_scraper.py lines 89-115).  It writes the combined
frame straight to the master path with `to_csv` (line 105) and, when
`all_posts` is non-empty, writes the delta to the timestamped backup path
(lines 108-112); `timestamp` stands for `datetime.now().strftime(...)`. -/
def save_posts (all_posts existing_posts : DataFrame)
    (data_dir timestamp : String) : SaveResult :=
  { combined := combinedOf all_posts existing_posts
    existingAfter := fixScrapedAt existing_posts
    ops := FsOp.write (joinPath data_dir MASTER_FILENAME)
        (combinedOf all_posts existing_posts)
      :: (if all_posts.rows.isEmpty then []
          else [FsOp.write (joinPath data_dir (backup_filename SORT_BY timestamp))
                  all_posts]) }

/-- `load_existing_posts` (reddit_scraper.py lines 30-42).  `file` is the
master file's content, `none` when the file does not exist.  Returns the
loaded frame (empty when absent) and the list of ids it contains. -/
def load_existing_posts (file : Option DataFrame) : DataFrame × List String :=
  match file with
  | some df => (df, df.rows.map Row.id)
  | none => (⟨[], false⟩, [])

/-- The record dict appended at reddit_scraper.py lines 69-82; `now` stands
for `datetime.now().isoformat()`. -/
def mkRow (subreddit_name now : String) (p : PrawPost) : Row :=
  { id := p.id, title := p.title, selftext := p.selftext, score := p.score,
    num_comments := p.num_comments, created_utc := p.created_utc,
    subreddit := subreddit_name, author := p.author, over_18 := p.over_18,
    is_self := p.is_self, url := p.url, scraped_at := some now }

/-- `scrape_subreddit` (reddit_scraper.py lines 45-86).  `posts` is the page
the source returns for this call (the praw listing, already bounded by the
limit).  A post is skipped exactly when its id is in `existing_ids`; the
loop never inserts into `existing_ids` itself. -/
def scrape_subreddit (subreddit_name : String) (posts : List PrawPost)
    (existing_ids : List String) (now : String) : List Row :=
  match posts with
  | [] => []
  | p :: ps =>
    if p.id ∈ existing_ids then
      scrape_subreddit subreddit_name ps existing_ids now
    else
      mkRow subreddit_name now p :: scrape_subreddit subreddit_name ps existing_ids now

/-- The per-subreddit loop of `__main__` (reddit_scraper.py lines 132-139):
scrape each category in turn; when a call returns a non-empty frame,
concatenate it onto `new_posts` and add its ids to `existing_ids` after
the call.  Returns the accumulated new rows and the final id set. -/
def runScrape (source : String → List PrawPost) (now : String) :
    List String → List String → List Row × List String
  | [], ids => ([], ids)
  | sub :: rest, ids =>
    let df := scrape_subreddit sub (source sub) ids now
    if df.isEmpty then runScrape source now rest ids
    else
      let r := runScrape source now rest (ids ++ df.map Row.id)
      (df ++ r.1, r.2)

/-- One full run of the script (reddit_scraper.py lines 119-150), abstracted
over the master file's content (`none` when absent) and the current time.
Returns the master file content after the run and the number of newly
accepted posts; when nothing new was found, `save_posts` is not called
(line 142) and the file is untouched. -/
def fullRun (file : Option DataFrame) (source : String → List PrawPost)
    (now ts : String) : Option DataFrame × Nat :=
  let l := load_existing_posts file
  let r := runScrape source now SUBREDDITS l.2
  if r.1.length > 0 then
    (some (save_posts ⟨r.1, !r.1.isEmpty⟩ l.1 "data/raw" ts).combined, r.1.length)
  else (file, 0)

/-- Errors the external source can raise (spec section 4.2). -/
inductive FetchError where
  | sourceUnavailable
  | rateLimited
deriving DecidableEq

/-- The per-subreddit loop of `__main__` when the source can fail.  The loop
body (reddit_scraper.py lines 132-139) has no try/except, so an error from
any fetch propagates out of the loop at once. -/
def runScrapeExc (source : String → Except FetchError (List PrawPost))
    (now : String) :
    List String → List String → Except FetchError (List Row × List String)
  | [], ids => Except.ok ([], ids)
  | sub :: rest, ids =>
    match source sub with
    | Except.error e => Except.error e
    | Except.ok posts =>
      let df := scrape_subreddit sub posts ids now
      if df.isEmpty then runScrapeExc source now rest ids
      else
        match runScrapeExc source now rest (ids ++ df.map Row.id) with
        | Except.error e => Except.error e
        | Except.ok r => Except.ok (df ++ r.1, r.2)

/-- One full run with a fallible source.  On a fetch error the script dies
before reaching `save_posts` (saving happens only after the loop, line
143), so the master file keeps its prior content. -/
def fullRunExc (file : Option DataFrame)
    (source : String → Except FetchError (List PrawPost))
    (now ts : String) : Option DataFrame × Except FetchError Nat :=
  let l := load_existing_posts file
  match runScrapeExc source now SUBREDDITS l.2 with
  | Except.error e => (file, Except.error e)
  | Except.ok r =>
    if r.1.length > 0 then
      (some (save_posts ⟨r.1, !r.1.isEmpty⟩ l.1 "data/raw" ts).combined,
        Except.ok r.1.length)
    else (file, Except.ok 0)

/-- A flat file system: list of (path, content), earliest entry wins on
reads. -/
def readFs (fs : List (String × DataFrame)) (p : String) : Option DataFrame :=
  match fs with
  | [] => none
  | e :: rest => if e.1 = p then some e.2 else readFs rest p

/-- Remove every entry at a path. -/
def deletePath (fs : List (String × DataFrame)) (p : String) :
    List (String × DataFrame) :=
  fs.filter (fun e => decide (e.1 ≠ p))

/-- Apply one file-system operation.  A write replaces the content at its
path unconditionally (`to_csv` semantics); a rename moves content. -/
def applyOp (fs : List (String × DataFrame)) : FsOp → List (String × DataFrame)
  | FsOp.write p c => (p, c) :: fs
  | FsOp.rename src dst =>
    match readFs fs src with
    | some c => (dst, c) :: deletePath fs src
    | none => fs

/-- Apply a trace of operations in order. -/
def applyOps (fs : List (String × DataFrame)) : List FsOp → List (String × DataFrame)
  | [] => fs
  | op :: ops => applyOps (applyOp fs op) ops

/-- feature_engineering.py line 93:
`engagement_ratio = num_comments / maximum(abs(score), 1)`, modelled over
the rationals (the division is exact at every input the claims mention). -/
def engagement_ratio (score num_comments : Int) : ℚ :=
  (num_comments : ℚ) / max |(score : ℚ)| 1

/-- The engagement-ratio column derivation of `engagement_features`
(feature_engineering.py lines 92-93) over a frame of
(score, num_comments) pairs. -/
def engagement_features (rows : List (Int × Int)) : List (Int × Int × ℚ) :=
  rows.map (fun p => (p.1, p.2, engagement_ratio p.1 p.2))

/-- Example master row for the spec's merge example: id 1, score 5. -/
def exampleMasterRow : Row :=
  { id := "1", title := "", selftext := "", score := 5, num_comments := 0,
    created_utc := 0, subreddit := "", author := "", over_18 := false,
    is_self := false, url := "", scraped_at := some "2024-01-01T00:00:00" }

/-- Delta row repeating id 1 with score 9. -/
def exampleDeltaRow1 : Row := { exampleMasterRow with score := 9 }

/-- Delta row with the fresh id 2 and score 3. -/
def exampleDeltaRow2 : Row := { exampleMasterRow with id := "2", score := 3 }

/-- The spec example's master: just the id-1, score-5 row. -/
def exampleMaster : DataFrame := ⟨[exampleMasterRow], true⟩

/-- The spec example's delta: id 1 with score 9, then id 2 with score 3. -/
def exampleDelta : DataFrame := ⟨[exampleDeltaRow1, exampleDeltaRow2], true⟩

/-- A second, distinct delta (used to exhibit backup overwriting). -/
def exampleDeltaB : DataFrame := ⟨[exampleDeltaRow1], true⟩

/-- An empty master frame, as `load_existing_posts` creates when the master
file is absent. -/
def exampleMasterEmpty : DataFrame := ⟨[], false⟩

/-- A non-empty master frame lacking the `scraped_at` column. -/
def exampleMasterNoCol : DataFrame :=
  ⟨[{ exampleMasterRow with scraped_at := none }], false⟩

/-- Two source posts sharing the id "a" (distinct titles). -/
def dupPostA : PrawPost :=
  { id := "a", title := "first", selftext := "", score := 0, num_comments := 0,
    created_utc := 0, author := "u", over_18 := false, is_self := true, url := "" }

/-- Second post with the same id "a" but a different title. -/
def dupPostB : PrawPost := { dupPostA with title := "second" }

/-- A post only the second configured subreddit would return. -/
def examplePost : PrawPost := { dupPostA with id := "p2" }

/-- A source whose first configured category fails and whose second one
returns a post. -/
def failingSource : String → Except FetchError (List PrawPost)
  | "depression" => Except.error FetchError.sourceUnavailable
  | _ => Except.ok [examplePost]

/-- A source that is rate limited on every category. -/
def rateLimitedSource : String → Except FetchError (List PrawPost) :=
  fun _ => Except.error FetchError.rateLimited

/-- An id kept by `dropDupAux` was not among the already-kept ids. -/
theorem dropDupAux_id_not_seen (rows : List Row) :
    ∀ (seen : List String) (x : String),
      x ∈ (dropDupAux seen rows).map Row.id → x ∉ seen := by
  induction rows with
  | nil => intro seen x h; simp [dropDupAux] at h
  | cons r rs ih =>
    intro seen x h
    by_cases hr : r.id ∈ seen
    · rw [dropDupAux, if_pos hr] at h
      exact ih seen x h
    · rw [dropDupAux, if_neg hr] at h
      simp only [List.map_cons, List.mem_cons] at h
      rcases h with h | h
      · subst h; exact hr
      · intro hx
        exact ih (r.id :: seen) x h (List.mem_cons_of_mem _ hx)

/-- The ids kept by `dropDupAux` contain no duplicates. -/
theorem dropDupAux_nodup (rows : List Row) :
    ∀ seen : List String, ((dropDupAux seen rows).map Row.id).Nodup := by
  induction rows with
  | nil => intro seen; simp [dropDupAux]
  | cons r rs ih =>
    intro seen
    by_cases hr : r.id ∈ seen
    · rw [dropDupAux, if_pos hr]; exact ih seen
    · rw [dropDupAux, if_neg hr]
      simp only [List.map_cons, List.nodup_cons]
      refine ⟨fun hmem => ?_, ih _⟩
      exact dropDupAux_id_not_seen rs (r.id :: seen) r.id hmem
        (List.mem_cons_self _ _)

/-- Membership of an id after duplicate removal. -/
theorem dropDupAux_mem_id (rows : List Row) :
    ∀ (seen : List String) (x : String),
      x ∈ (dropDupAux seen rows).map Row.id ↔
        x ∈ rows.map Row.id ∧ x ∉ seen := by
  induction rows with
  | nil => intro seen x; simp [dropDupAux]
  | cons r rs ih =>
    intro seen x
    by_cases hr : r.id ∈ seen
    · rw [dropDupAux, if_pos hr, ih]
      simp only [List.map_cons, List.mem_cons]
      constructor
      · rintro ⟨h1, h2⟩; exact ⟨Or.inr h1, h2⟩
      · rintro ⟨h1 | h1, h2⟩
        · subst h1; exact absurd hr h2
        · exact ⟨h1, h2⟩
    · rw [dropDupAux, if_neg hr]
      simp only [List.map_cons, List.mem_cons, ih]
      constructor
      · rintro (h | ⟨h1, h2⟩)
        · exact ⟨Or.inl h, by rw [h]; exact hr⟩
        · exact ⟨Or.inr h1, fun hx => h2 (Or.inr hx)⟩
      · rintro ⟨h1 | h1, h2⟩
        · exact Or.inl h1
        · by_cases hxr : x = r.id
          · exact Or.inl hxr
          · exact Or.inr ⟨h1, fun hc => hc.elim hxr h2⟩

/-- Duplicate removal does not change which row is found first, for an id
not among the already-kept ones. -/
theorem findFirstById_dropDupAux (rows : List Row) :
    ∀ (seen : List String) (x : String), x ∉ seen →
      findFirstById x (dropDupAux seen rows) = findFirstById x rows := by
  induction rows with
  | nil => intro seen x _; rfl
  | cons r rs ih =>
    intro seen x hx
    by_cases hr : r.id ∈ seen
    · rw [dropDupAux, if_pos hr]
      have hne : r.id ≠ x := fun h => hx (h ▸ hr)
      rw [findFirstById, if_neg hne]
      exact ih seen x hx
    · rw [dropDupAux, if_neg hr]
      by_cases hrx : r.id = x
      · rw [findFirstById, if_pos hrx, findFirstById, if_pos hrx]
      · rw [findFirstById, if_neg hrx, findFirstById, if_neg hrx]
        refine ih (r.id :: seen) x fun h => ?_
        rcases List.mem_cons.mp h with h | h
        · exact hrx h.symm
        · exact hx h

/-- Searching a concatenation finds the left part's row when the id occurs
there. -/
theorem findFirstById_append_left (l1 l2 : List Row) (x : String)
    (h : x ∈ l1.map Row.id) :
    findFirstById x (l1 ++ l2) = findFirstById x l1 := by
  induction l1 with
  | nil => simp at h
  | cons r rs ih =>
    by_cases hrx : r.id = x
    · rw [List.cons_append, findFirstById, if_pos hrx, findFirstById, if_pos hrx]
    · rw [List.cons_append, findFirstById, if_neg hrx, findFirstById, if_neg hrx]
      refine ih ?_
      simp only [List.map_cons, List.mem_cons] at h
      rcases h with h | h
      · exact absurd h.symm hrx
      · exact h

/-- Adding the `scraped_at` column keeps a row's id. -/
theorem addScrapedAtUnknown_id (r : Row) : (addScrapedAtUnknown r).id = r.id :=
  rfl

/-- Adding the `scraped_at` column commutes with first-row lookup. -/
theorem findFirstById_map_addScrapedAt (l : List Row) (x : String) :
    findFirstById x (l.map addScrapedAtUnknown) =
      (findFirstById x l).map addScrapedAtUnknown := by
  induction l with
  | nil => rfl
  | cons r rs ih =>
    by_cases hrx : r.id = x
    · simp [findFirstById, addScrapedAtUnknown_id, hrx]
    · simp [findFirstById, addScrapedAtUnknown_id, hrx, ih]

/-- The `scraped_at` fix does not touch the ids. -/
theorem fixScrapedAt_map_id (e : DataFrame) :
    (fixScrapedAt e).rows.map Row.id = e.rows.map Row.id := by
  unfold fixScrapedAt
  split
  · rfl
  · split
    · rfl
    · simp [addScrapedAtUnknown]

/-- The combined frame's rows are the duplicate-free concatenation of the
(column-fixed) existing rows with the new rows. -/
theorem combinedOf_rows (a e : DataFrame) :
    (combinedOf a e).rows =
      drop_duplicates_by_id ((fixScrapedAt e).rows ++ a.rows) := by
  unfold combinedOf
  split
  · next he =>
    have : e.rows = [] := List.isEmpty_iff.mp he
    rw [fixScrapedAt, if_pos he, this]
    rfl
  · rfl

/-- The `scraped_at` fix changes a row only in its `scraped_at` column. -/
theorem stripScrapedAt_addScrapedAt (r : Row) :
    stripScrapedAt (addScrapedAtUnknown r) = stripScrapedAt r :=
  rfl

/-- C1: merging appends the delta to the master and removes duplicate ids
keeping the first occurrence, so the master's earliest-seen record for an
id keeps its fields; on the spec's example, master with (id 1, score 5)
merged with the delta (id 1, score 9), (id 2, score 3) yields exactly
(id 1, score 5) followed by (id 2, score 3). -/
theorem merge_keeps_first_occurrence :
    (∀ (all_posts existing : DataFrame) (dir ts : String),
        (save_posts all_posts existing dir ts).combined.rows
          = drop_duplicates_by_id ((fixScrapedAt existing).rows ++ all_posts.rows)) ∧
    (∀ (all_posts existing : DataFrame) (dir ts x : String),
        x ∈ (fixScrapedAt existing).rows.map Row.id →
        findFirstById x (save_posts all_posts existing dir ts).combined.rows
          = findFirstById x (fixScrapedAt existing).rows) ∧
    (∀ (all_posts existing : DataFrame) (dir ts x : String),
        x ∈ existing.rows.map Row.id →
        (findFirstById x (save_posts all_posts existing dir ts).combined.rows).map
            stripScrapedAt
          = (findFirstById x existing.rows).map stripScrapedAt) ∧
    (save_posts exampleDelta exampleMaster "data/raw" "20240101_120000").combined.rows
        = [exampleMasterRow, exampleDeltaRow2] := by
  have hrows : ∀ (a e : DataFrame) (dir ts : String),
      (save_posts a e dir ts).combined.rows
        = drop_duplicates_by_id ((fixScrapedAt e).rows ++ a.rows) :=
    fun a e _ _ => combinedOf_rows a e
  have hfind : ∀ (a e : DataFrame) (dir ts x : String),
      x ∈ (fixScrapedAt e).rows.map Row.id →
      findFirstById x (save_posts a e dir ts).combined.rows
        = findFirstById x (fixScrapedAt e).rows := by
    intro a e dir ts x hx
    rw [hrows, drop_duplicates_by_id,
      findFirstById_dropDupAux _ [] x (List.not_mem_nil x),
      findFirstById_append_left _ _ _ hx]
  refine ⟨hrows, hfind, ?_, by decide⟩
  intro a e dir ts x hx
  have hx' : x ∈ (fixScrapedAt e).rows.map Row.id := by
    rw [fixScrapedAt_map_id]; exact hx
  rw [hfind a e dir ts x hx']
  unfold fixScrapedAt
  split
  · rfl
  · split
    · rfl
    · rw [findFirstById_map_addScrapedAt]
      cases findFirstById x e.rows with
      | none => rfl
      | some r => simp [stripScrapedAt_addScrapedAt]

/-- Witness for C1 at the spec's own example: the id "1" occurs in the
master and its merged record is the master's record. -/
theorem merge_keeps_first_occurrence_witness :
    ("1" ∈ (fixScrapedAt exampleMaster).rows.map Row.id) ∧
    findFirstById "1"
        (save_posts exampleDelta exampleMaster "data/raw" "20240101_120000").combined.rows
      = findFirstById "1" (fixScrapedAt exampleMaster).rows :=
  ⟨by decide,
    merge_keeps_first_occurrence.2.1 exampleDelta exampleMaster
      "data/raw" "20240101_120000" "1" (by decide)⟩

/-- C2: the master collection produced and persisted by `save_posts`
carries no two rows with the same id, and the frame written to the master
path is exactly that collection. -/
theorem master_ids_nodup :
    ∀ (all_posts existing : DataFrame) (dir ts : String),
      (((save_posts all_posts existing dir ts).combined.rows.map Row.id).Nodup) ∧
      (save_posts all_posts existing dir ts).ops.head?
        = some (FsOp.write (joinPath dir MASTER_FILENAME)
            (save_posts all_posts existing dir ts).combined) := by
  intro a e dir ts
  refine ⟨?_, rfl⟩
  have : (save_posts a e dir ts).combined.rows
      = drop_duplicates_by_id ((fixScrapedAt e).rows ++ a.rows) :=
    combinedOf_rows a e
  rw [this, drop_duplicates_by_id]
  exact dropDupAux_nodup _ []

/-- One fetch call accepts exactly the posts whose id is unknown at the
start of the call, in source order — including repeats of the same id. -/
theorem scrape_subreddit_eq_filter (s : String) (posts : List PrawPost)
    (ids : List String) (now : String) :
    scrape_subreddit s posts ids now
      = (posts.filter (fun p => decide (p.id ∉ ids))).map (mkRow s now) := by
  induction posts with
  | nil => rfl
  | cons p ps ih =>
    by_cases hp : p.id ∈ ids
    · rw [scrape_subreddit, if_pos hp, ih]
      simp [List.filter_cons, hp]
    · rw [scrape_subreddit, if_neg hp, ih]
      simp [List.filter_cons, hp]

/-- Every accepted row's id was unknown at the start of the call. -/
theorem scrape_subreddit_id_not_known (s : String) (posts : List PrawPost)
    (ids : List String) (now : String) :
    ∀ r ∈ scrape_subreddit s posts ids now, r.id ∉ ids := by
  induction posts with
  | nil => intro r h; simp [scrape_subreddit] at h
  | cons p ps ih =>
    intro r h
    by_cases hp : p.id ∈ ids
    · rw [scrape_subreddit, if_pos hp] at h
      exact ih r h
    · rw [scrape_subreddit, if_neg hp] at h
      rcases List.mem_cons.mp h with h | h
      · subst h; exact hp
      · exact ih r h

/-- The run loop's final id set is the initial one followed by the ids of
every accepted row. -/
theorem runScrape_ids_eq (source : String → List PrawPost) (now : String) :
    ∀ (subs : List String) (ids : List String),
      (runScrape source now subs ids).2
        = ids ++ ((runScrape source now subs ids).1).map Row.id := by
  intro subs
  induction subs with
  | nil => intro ids; simp [runScrape]
  | cons sub rest ih =>
    intro ids
    rw [runScrape]
    by_cases hdf : (scrape_subreddit sub (source sub) ids now).isEmpty
    · rw [if_pos hdf]
      have : scrape_subreddit sub (source sub) ids now = [] :=
        List.isEmpty_iff.mp hdf
      rw [ih ids]
    · rw [if_neg hdf]
      simp only
      rw [ih (ids ++ (scrape_subreddit sub (source sub) ids now).map Row.id)]
      simp [List.append_assoc]

/-- No row accepted anywhere in the run repeats an id known before the
run's loop started. -/
theorem runScrape_id_not_known (source : String → List PrawPost) (now : String) :
    ∀ (subs : List String) (ids : List String),
      ∀ r ∈ (runScrape source now subs ids).1, r.id ∉ ids := by
  intro subs
  induction subs with
  | nil => intro ids r h; simp [runScrape] at h
  | cons sub rest ih =>
    intro ids r h
    rw [runScrape] at h
    by_cases hdf : (scrape_subreddit sub (source sub) ids now).isEmpty
    · rw [if_pos hdf] at h
      exact ih ids r h
    · rw [if_neg hdf] at h
      simp only at h
      rcases List.mem_append.mp h with h | h
      · exact scrape_subreddit_id_not_known sub (source sub) ids now r h
      · intro hx
        exact ih _ r h (List.mem_append.mpr (Or.inl hx))

/-- C4 counterexample: when the source returns two posts with the same id
"a" in ONE fetch call, both are accepted — the second is not rejected, so
the accepted ids are not duplicate-free within the call. -/
theorem intra_call_dedup_refuted :
    ((scrape_subreddit "depression" [dupPostA, dupPostB] [] "T").map Row.id
        = ["a", "a"]) ∧
    ¬ (((scrape_subreddit "depression" [dupPostA, dupPostB] [] "T").map Row.id).Nodup) := by
  decide

/-- C4 amended: a fetch call drops a record exactly when its id is in
`known_ids` as the call starts, and does not itself add accepted ids —
repeats of one id inside a single call are all accepted.  The run loop of
`__main__` adds each call's accepted ids to the shared set only after the
call returns, so a record whose id was accepted in an earlier fetch call
of the same run is rejected by every later call. -/
theorem fetch_filter_semantics :
    (∀ (s : String) (posts : List PrawPost) (ids : List String) (now : String),
        scrape_subreddit s posts ids now
          = (posts.filter (fun p => decide (p.id ∉ ids))).map (mkRow s now)) ∧
    (∀ (s : String) (posts : List PrawPost) (ids : List String) (now : String),
        ∀ r ∈ scrape_subreddit s posts ids now, r.id ∉ ids) ∧
    (∀ (source : String → List PrawPost) (now : String)
        (subs ids : List String),
        (runScrape source now subs ids).2
          = ids ++ ((runScrape source now subs ids).1).map Row.id) ∧
    (∀ (source : String → List PrawPost) (now : String)
        (subs ids : List String),
        ∀ r ∈ (runScrape source now subs ids).1, r.id ∉ ids) ∧
    (∀ (source : String → List PrawPost) (now sub : String)
        (rest ids : List String),
        ∀ r ∈ (runScrape source now rest
            (ids ++ (scrape_subreddit sub (source sub) ids now).map Row.id)).1,
          r.id ∉ (scrape_subreddit sub (source sub) ids now).map Row.id) := by
  refine ⟨scrape_subreddit_eq_filter, scrape_subreddit_id_not_known,
    fun source now subs ids => runScrape_ids_eq source now subs ids,
    fun source now subs ids => runScrape_id_not_known source now subs ids,
    ?_⟩
  intro source now sub rest ids r h hx
  exact runScrape_id_not_known source now rest _ r h
    (List.mem_append.mpr (Or.inr hx))

/-- Witness for C4's amended statement: a row accepted for the second
category of a run does not repeat the id "a" accepted for the first. -/
theorem fetch_filter_semantics_witness :
    (mkRow "mentalhealth" "T" examplePost
        ∈ (runScrape (fun sub => if sub = "depression" then [dupPostA] else [examplePost])
            "T" ["mentalhealth"]
            ([] ++ (scrape_subreddit "depression"
              ((fun sub => if sub = "depression" then [dupPostA] else [examplePost]) "depression")
              [] "T").map Row.id)).1) ∧
    (mkRow "mentalhealth" "T" examplePost).id
      ∉ (scrape_subreddit "depression"
          ((fun sub => if sub = "depression" then [dupPostA] else [examplePost]) "depression")
          [] "T").map Row.id :=
  ⟨by decide,
    fetch_filter_semantics.2.2.2.2
      (fun sub => if sub = "depression" then [dupPostA] else [examplePost])
      "T" "depression" ["mentalhealth"] []
      (mkRow "mentalhealth" "T" examplePost) (by decide)⟩

/-- When every returned post is already known, a fetch call accepts
nothing. -/
theorem scrape_subreddit_all_known (s : String) (posts : List PrawPost)
    (ids : List String) (now : String)
    (h : ∀ p ∈ posts, p.id ∈ ids) :
    scrape_subreddit s posts ids now = [] := by
  induction posts with
  | nil => rfl
  | cons p ps ih =>
    rw [scrape_subreddit, if_pos (h p (List.mem_cons_self _ _))]
    exact ih fun q hq => h q (List.mem_cons_of_mem _ hq)

/-- A returned post whose id is unknown contributes its id to the call's
output. -/
theorem scrape_subreddit_covers (s : String) (posts : List PrawPost)
    (ids : List String) (now : String) :
    ∀ p ∈ posts, p.id ∉ ids →
      p.id ∈ (scrape_subreddit s posts ids now).map Row.id := by
  induction posts with
  | nil => intro p h; simp at h
  | cons q ps ih =>
    intro p hp hnot
    rcases List.mem_cons.mp hp with hp | hp
    · subst hp
      rw [scrape_subreddit, if_neg hnot]
      exact List.mem_cons_self _ _
    · by_cases hq : q.id ∈ ids
      · rw [scrape_subreddit, if_pos hq]
        exact ih p hp hnot
      · rw [scrape_subreddit, if_neg hq]
        simp only [List.map_cons, List.mem_cons]
        exact Or.inr (ih p hp hnot)

/-- Every id the source can return during a run is either known when the
loop starts or among the ids accepted by the run. -/
theorem runScrape_covers (source : String → List PrawPost) (now : String) :
    ∀ (subs ids : List String), ∀ sub ∈ subs, ∀ p ∈ source sub,
      p.id ∈ ids ∨ p.id ∈ ((runScrape source now subs ids).1).map Row.id := by
  intro subs
  induction subs with
  | nil => intro ids sub h; simp at h
  | cons s rest ih =>
    intro ids sub hsub p hp
    rw [runScrape]
    by_cases hdf : (scrape_subreddit s (source s) ids now).isEmpty
    · rw [if_pos hdf]
      rcases List.mem_cons.mp hsub with hsub | hsub
      · subst hsub
        by_cases hknown : p.id ∈ ids
        · exact Or.inl hknown
        · have := scrape_subreddit_covers sub (source sub) ids now p hp hknown
          rw [List.isEmpty_iff.mp hdf] at this
          simp at this
      · exact ih ids sub hsub p hp
    · rw [if_neg hdf]
      simp only
      rcases List.mem_cons.mp hsub with hsub | hsub
      · subst hsub
        by_cases hknown : p.id ∈ ids
        · exact Or.inl hknown
        · refine Or.inr ?_
          rw [List.map_append]
          exact List.mem_append.mpr
            (Or.inl (scrape_subreddit_covers sub (source sub) ids now p hp hknown))
      · rcases ih (ids ++ (scrape_subreddit s (source s) ids now).map Row.id)
            sub hsub p hp with h | h
        · rcases List.mem_append.mp h with h | h
          · exact Or.inl h
          · refine Or.inr ?_
            rw [List.map_append]
            exact List.mem_append.mpr (Or.inl h)
        · refine Or.inr ?_
          rw [List.map_append]
          exact List.mem_append.mpr (Or.inr h)

/-- When every id the source can return is already known, the whole run
loop accepts nothing and leaves the id set unchanged. -/
theorem runScrape_empty_of_known (source : String → List PrawPost) (now : String) :
    ∀ (subs ids : List String),
      (∀ sub ∈ subs, ∀ p ∈ source sub, p.id ∈ ids) →
      runScrape source now subs ids = ([], ids) := by
  intro subs
  induction subs with
  | nil => intro ids _; rfl
  | cons s rest ih =>
    intro ids h
    have hempty : scrape_subreddit s (source s) ids now = [] :=
      scrape_subreddit_all_known s (source s) ids now
        (h s (List.mem_cons_self _ _))
    rw [runScrape, hempty]
    rw [if_pos (by rfl)]
    exact ih ids fun sub hsub => h sub (List.mem_cons_of_mem _ hsub)

/-- The id list `load_existing_posts` returns is the loaded frame's ids. -/
theorem load_existing_posts_snd (file : Option DataFrame) :
    (load_existing_posts file).2 = (load_existing_posts file).1.rows.map Row.id := by
  cases file <;> rfl

/-- An id present in the existing frame or in the new posts is present in
the combined frame. -/
theorem combinedOf_mem_id (a e : DataFrame) (x : String)
    (h : x ∈ e.rows.map Row.id ∨ x ∈ a.rows.map Row.id) :
    x ∈ (combinedOf a e).rows.map Row.id := by
  rw [combinedOf_rows, drop_duplicates_by_id, dropDupAux_mem_id]
  refine ⟨?_, List.not_mem_nil x⟩
  rw [List.map_append]
  rcases h with h | h
  · exact List.mem_append.mpr (Or.inl (by rw [fixScrapedAt_map_id]; exact h))
  · exact List.mem_append.mpr (Or.inr h)

/-- C6: a second run over an unchanged source accepts zero new records and
returns with the master file exactly as the first run left it — when
nothing new is found, `save_posts` is never called, so the file is not
even rewritten. -/
theorem second_run_noop :
    ∀ (file : Option DataFrame) (source : String → List PrawPost)
      (now1 ts1 now2 ts2 : String),
      fullRun ((fullRun file source now1 ts1).1) source now2 ts2
        = ((fullRun file source now1 ts1).1, 0) := by
  intro file source now1 ts1 now2 ts2
  have hknown : ∀ sub ∈ SUBREDDITS, ∀ p ∈ source sub,
      p.id ∈ (load_existing_posts ((fullRun file source now1 ts1).1)).2 := by
    intro sub hsub p hp
    have hcov := runScrape_covers source now1 SUBREDDITS
      (load_existing_posts file).2 sub hsub p hp
    by_cases hlen :
        (runScrape source now1 SUBREDDITS (load_existing_posts file).2).1.length > 0
    · have h1 : (fullRun file source now1 ts1).1
          = some (combinedOf
              ⟨(runScrape source now1 SUBREDDITS (load_existing_posts file).2).1,
                !(runScrape source now1 SUBREDDITS (load_existing_posts file).2).1.isEmpty⟩
              (load_existing_posts file).1) := by
        simp only [fullRun]
        rw [if_pos hlen]
        rfl
      rw [h1]
      simp only [load_existing_posts]
      refine combinedOf_mem_id _ _ _ ?_
      rcases hcov with h | h
      · rw [load_existing_posts_snd] at h
        exact Or.inl h
      · exact Or.inr h
    · have h1 : (fullRun file source now1 ts1).1 = file := by
        simp only [fullRun]
        rw [if_neg hlen]
      rw [h1]

      rcases hcov with h | h
      · exact h
      · have : (runScrape source now1 SUBREDDITS (load_existing_posts file).2).1 = [] :=
          List.length_eq_zero.mp (Nat.eq_zero_of_not_pos hlen)
        rw [this] at h
        simp at h
  set f1 := (fullRun file source now1 ts1).1 with hf1
  have hrun : runScrape source now2 SUBREDDITS (load_existing_posts f1).2
      = ([], (load_existing_posts f1).2) :=
    runScrape_empty_of_known source now2 SUBREDDITS _ hknown
  simp only [fullRun]
  rw [hrun]
  simp

/-- C7 counterexample: with a source whose first configured category fails
with SourceUnavailableError while the second would return a post, the run
does not continue to the second category — it exits with the uncaught
error and never accepts the second category's post. -/
theorem fetch_error_continue_refuted :
    (fullRunExc none failingSource "T" "20240101_120000"
        = (none, Except.error FetchError.sourceUnavailable)) ∧
    failingSource "mentalhealth" = Except.ok [examplePost] := by
  constructor
  · rfl
  · rfl

/-- C7 amended: a fetch error is not caught anywhere: a failure on the
first category makes the whole run abort with that error before anything
is persisted, and whenever the run ends in an error, the master file
still holds exactly its prior content (no write ever precedes the loop). -/
theorem fetch_error_aborts_run :
    ∀ (file : Option DataFrame)
      (source : String → Except FetchError (List PrawPost))
      (now ts : String) (e : FetchError),
      (source "depression" = Except.error e →
        fullRunExc file source now ts = (file, Except.error e)) ∧
      ((fullRunExc file source now ts).2 = Except.error e →
        (fullRunExc file source now ts).1 = file) := by
  intro file source now ts e
  constructor
  · intro h
    simp only [fullRunExc, SUBREDDITS, runScrapeExc, h]
  · intro h
    simp only [fullRunExc] at h ⊢
    cases hrs : runScrapeExc source now SUBREDDITS (load_existing_posts file).2 with
    | error e2 => rfl
    | ok r =>
      rw [hrs] at h
      have h2 : (if r.1.length > 0
          then (some (save_posts ⟨r.1, !r.1.isEmpty⟩
                  (load_existing_posts file).1 "data/raw" ts).combined,
                (Except.ok r.1.length : Except FetchError Nat))
          else (file, Except.ok 0)).2 = Except.error e := h
      by_cases hlen : r.1.length > 0
      · rw [if_pos hlen] at h2
        exact absurd h2 (by simp)
      · rw [if_neg hlen] at h2
        exact absurd h2 (by simp)

/-- Witness for C7's amended statement: a rate-limited source leaves an
existing master file untouched and surfaces the error. -/
theorem fetch_error_aborts_run_witness :
    (rateLimitedSource "depression" = Except.error FetchError.rateLimited) ∧
    fullRunExc (some exampleMaster) rateLimitedSource "T" "20240101_120000"
      = (some exampleMaster, Except.error FetchError.rateLimited) :=
  ⟨rfl,
    (fetch_error_aborts_run (some exampleMaster) rateLimitedSource
      "T" "20240101_120000" FetchError.rateLimited).1 rfl⟩

/-- C3 counterexample: at a concrete save, the trace contains no rename
onto the master path at all — the persist step is not a
write-temporary-then-rename. -/
theorem persist_rename_refuted :
    ¬ ∃ src : String, src ≠ joinPath "data/raw" MASTER_FILENAME ∧
        FsOp.rename src (joinPath "data/raw" MASTER_FILENAME)
          ∈ (save_posts exampleDelta exampleMaster "data/raw" "20240101_120000").ops := by
  rintro ⟨src, -, hmem⟩
  simp [save_posts, exampleDelta] at hmem

/-- C3 amended: `save_posts` performs no rename; it writes the combined
frame directly (in place) to the master path, which afterwards holds the
new combined content — an interruption mid-write is mid-way through the
master file itself, not through a temporary file. -/
theorem persist_direct_write :
    ∀ (all_posts existing : DataFrame) (dir ts : String)
      (fs : List (String × DataFrame)),
      (∀ op ∈ (save_posts all_posts existing dir ts).ops, isRename op = false) ∧
      (joinPath dir (backup_filename SORT_BY ts) ≠ joinPath dir MASTER_FILENAME →
        readFs (applyOps fs (save_posts all_posts existing dir ts).ops)
            (joinPath dir MASTER_FILENAME)
          = some (combinedOf all_posts existing)) := by
  intro a e dir ts fs
  constructor
  · intro op hop
    simp only [save_posts] at hop
    rcases List.mem_cons.mp hop with h | h
    · subst h; rfl
    · by_cases ha : a.rows.isEmpty
      · rw [if_pos ha] at h
        simp at h
      · rw [if_neg ha] at h
        rcases List.mem_cons.mp h with h | h
        · subst h; rfl
        · simp at h
  · intro hne
    by_cases ha : a.rows.isEmpty
    · simp only [save_posts, ha, if_true]
      simp [applyOps, applyOp, readFs]
    · simp only [save_posts, ha, if_false]
      simp only [applyOps, applyOp]
      rw [readFs, if_neg hne, readFs, if_pos rfl]

/-- Witness for C3's amended statement: at concrete arguments the backup
path differs from the master path and the master path ends up holding the
combined frame. -/
theorem persist_direct_write_witness :
    (joinPath "data/raw" (backup_filename SORT_BY "20240101_120000")
        ≠ joinPath "data/raw" MASTER_FILENAME) ∧
    readFs (applyOps []
        (save_posts exampleDelta exampleMaster "data/raw" "20240101_120000").ops)
        (joinPath "data/raw" MASTER_FILENAME)
      = some (combinedOf exampleDelta exampleMaster) :=
  ⟨by decide,
    (persist_direct_write exampleDelta exampleMaster
      "data/raw" "20240101_120000" []).2 (by decide)⟩

/-- C5 counterexample: two runs in the same second write their non-empty
deltas to the same backup path; the second write silently replaces the
first backup's content (the two deltas are distinct). -/
theorem backup_collision_refuted :
    (readFs (applyOps
        (applyOps []
          (save_posts exampleDelta exampleMasterEmpty "data/raw" "20240101_120000").ops)
        (save_posts exampleDeltaB exampleMasterEmpty "data/raw" "20240101_120000").ops)
        (joinPath "data/raw" (backup_filename SORT_BY "20240101_120000"))
      = some exampleDeltaB) ∧
    (readFs (applyOps []
        (save_posts exampleDelta exampleMasterEmpty "data/raw" "20240101_120000").ops)
        (joinPath "data/raw" (backup_filename SORT_BY "20240101_120000"))
      = some exampleDelta) ∧
    exampleDelta ≠ exampleDeltaB := by
  refine ⟨by decide, by decide, by decide⟩

/-- C5 amended: the backup name depends only on the sort order and the
second-granularity timestamp, so two runs in the same second target the
same backup path; the second run's write is unconditional and leaves the
second delta as that path's content — there is no error and no
disambiguating suffix. -/
theorem backup_silent_overwrite :
    ∀ (all1 all2 ex1 ex2 : DataFrame) (dir ts : String)
      (fs : List (String × DataFrame)),
      all1.rows ≠ [] → all2.rows ≠ [] →
      ((save_posts all1 ex1 dir ts).ops
          = [FsOp.write (joinPath dir MASTER_FILENAME) (combinedOf all1 ex1),
             FsOp.write (joinPath dir (backup_filename SORT_BY ts)) all1]) ∧
      ((save_posts all2 ex2 dir ts).ops
          = [FsOp.write (joinPath dir MASTER_FILENAME) (combinedOf all2 ex2),
             FsOp.write (joinPath dir (backup_filename SORT_BY ts)) all2]) ∧
      readFs (applyOps fs (save_posts all2 ex2 dir ts).ops)
          (joinPath dir (backup_filename SORT_BY ts))
        = some all2 := by
  intro all1 all2 ex1 ex2 dir ts fs h1 h2
  have e1 : all1.rows.isEmpty = false := by
    cases hh : all1.rows with
    | nil => exact absurd hh h1
    | cons x xs => rfl
  have e2 : all2.rows.isEmpty = false := by
    cases hh : all2.rows with
    | nil => exact absurd hh h2
    | cons x xs => rfl
  refine ⟨?_, ?_, ?_⟩
  · simp [save_posts, e1]
  · simp [save_posts, e2]
  · simp only [save_posts, e2, if_false]
    simp only [applyOps, applyOp]
    rw [readFs, if_pos rfl]

/-- Witness for C5's amended statement: both example deltas are non-empty
and the second one ends up as the shared backup path's content. -/
theorem backup_silent_overwrite_witness :
    (exampleDelta.rows ≠ [] ∧ exampleDeltaB.rows ≠ []) ∧
    readFs (applyOps
        (applyOps []
          (save_posts exampleDelta exampleMasterEmpty "data/raw" "20240101_120000").ops)
        (save_posts exampleDeltaB exampleMasterEmpty "data/raw" "20240101_120000").ops)
        (joinPath "data/raw" (backup_filename SORT_BY "20240101_120000"))
      = some exampleDeltaB :=
  ⟨⟨by decide, by decide⟩,
    (backup_silent_overwrite exampleDelta exampleDeltaB exampleMasterEmpty
      exampleMasterEmpty "data/raw" "20240101_120000"
      (applyOps []
        (save_posts exampleDelta exampleMasterEmpty "data/raw" "20240101_120000").ops)
      (by decide) (by decide)).2.2⟩

/-- C9: the engagement ratio is the comment count divided by the maximum of
the score's absolute value and 1 — stated as an exact cancellation, the
denominator never being zero — and at score -2, comments 3 it is 3/2. -/
theorem engagement_ratio_spec :
    (∀ score num_comments : Int,
        engagement_ratio score num_comments * max |(score : ℚ)| 1
          = (num_comments : ℚ)) ∧
    engagement_features [(-2, 3)] = [(-2, 3, (3 : ℚ) / 2)] := by
  constructor
  · intro s c
    have hpos : (0 : ℚ) < max |(s : ℚ)| 1 :=
      lt_of_lt_of_le one_pos (le_max_right _ _)
    rw [engagement_ratio, div_mul_cancel₀ _ (ne_of_gt hpos)]
  · norm_num [engagement_features, engagement_ratio]

/-- C10: when the caller's `existing_posts` frame is non-empty and lacks
the `scraped_at` column, `save_posts` leaves the caller's frame — not a
copy — with that column added, holding "unknown" in every row. -/
theorem save_posts_mutates_existing :
    ∀ (all_posts existing : DataFrame) (dir ts : String),
      existing.rows ≠ [] → existing.hasScrapedAtCol = false →
      ((save_posts all_posts existing dir ts).existingAfter
          = ⟨existing.rows.map addScrapedAtUnknown, true⟩) ∧
      (∀ r ∈ (save_posts all_posts existing dir ts).existingAfter.rows,
          r.scraped_at = some "unknown") := by
  intro a e dir ts hne hcol
  have hempty : e.rows.isEmpty = false := by
    cases hh : e.rows with
    | nil => exact absurd hh hne
    | cons x xs => rfl
  have hfix : fixScrapedAt e = ⟨e.rows.map addScrapedAtUnknown, true⟩ := by
    rw [fixScrapedAt, if_neg (by simp [hempty]), if_neg (by simp [hcol])]
  have hafter : (save_posts a e dir ts).existingAfter = fixScrapedAt e := rfl
  refine ⟨by rw [hafter, hfix], ?_⟩
  intro r hr
  rw [hafter, hfix] at hr
  rcases List.mem_map.mp hr with ⟨r0, _, rfl⟩
  rfl

/-- Witness for C10: a concrete non-empty, column-less master frame comes
back from `save_posts` with the column added to its row. -/
theorem save_posts_mutates_existing_witness :
    (exampleMasterNoCol.rows ≠ [] ∧ exampleMasterNoCol.hasScrapedAtCol = false) ∧
    (save_posts exampleDelta exampleMasterNoCol "data/raw" "20240101_120000").existingAfter
      = ⟨exampleMasterNoCol.rows.map addScrapedAtUnknown, true⟩ :=
  ⟨⟨by decide, rfl⟩,
    (save_posts_mutates_existing exampleDelta exampleMasterNoCol
      "data/raw" "20240101_120000" (by decide) rfl).1⟩

end Reddit
